import Mathlib

/-!
Shallow Lean embedding of the reconciliation and crawl-backlog engine of the
SCHWordCloud repository, together with proofs that settle the frozen claims
about it.

Source files embedded:
  * `src/schwordcloud/datamanager/annotation.py`
  * `src/schwordcloud/datamanager/sch.py`
  * `src/schwordcloud/datamanager/datamanager.py`
  * `src/schwordcloud/schwordcloud.py`

Modelling conventions:
  * pandas `DataFrame`s become Lean `List`s of row structures, preserving
    row order (pandas operations used by the code are order-preserving);
  * file-system and network effects become explicit state fields and
    injected boolean failure flags; Python exceptions become `Except`;
  * `datetime.now()` / `environ[...]` / `uuid.uuid4()` reads are injected
    through an environment (`DMEnv`) with a counted uuid supply;
  * dates are day counts (`Int`), `pd.NaT` is `Option.none`.
-/

namespace SCHWordCloud

/-- One row of the annotation ledger, schema
`ID, DataHora, Computador, Usuário, Homologação, Atributo, Valor, Situação`
(`Situação ∈ {1 = positive, -1 = null}`). -/
structure AnnotRow where
  ID : String
  DataHora : String
  Computador : String
  Usuario : String
  Homologacao : String
  Atributo : String
  Valor : String
  Situacao : Int
deriving DecidableEq, Repr

/-- One row of the SCH catalog, restricted to the columns the backlog
resolver reads: `Número de Homologação`, `Data da Homologação` (day count,
`none` models `pd.NaT`), `Categoria do Produto`. -/
structure SchRow where
  numeroHomologacao : String
  dataHomologacao : Option Int
  categoriaDoProduto : Int
deriving DecidableEq, Repr

/-- The `wordcloud` sub-dictionary of a search result: the searched query and
the extracted word-count payload (empty string when nothing was found).
The constant `metaData` block is omitted: no claim inspects it. -/
structure WordCloudData where
  searchedWord : String
  cloudOfWords : String
deriving DecidableEq, Repr

/-- A search result as produced by `BaseSearch.request_wordcloud`. -/
structure SearchResult where
  query : String
  status_code : Nat
  wordcloud : WordCloudData
  date_time : String
  raw_contents : String
deriving DecidableEq, Repr

/-! ### Python dict semantics

`get_uuid_history` builds `dict(pairs)` from the ledger's
`(Homologação, ID)` rows.  `dict(pairs)` inserts the pairs in order, a later
pair with an existing key overwriting that key's value. -/

/-- Insert one key/value pair into a Python dict (insertion-ordered
association list): overwrite the value if the key is present, append
otherwise. -/
def dictInsert (d : List (String × String)) (k v : String) :
    List (String × String) :=
  if (d.find? (fun p => p.1 == k)).isSome then
    d.map (fun p => if p.1 == k then (p.1, v) else p)
  else
    d ++ [(k, v)]

/-- `dict(pairs)`: fold `dictInsert` over the pairs in order. -/
def dictOfPairs (pairs : List (String × String)) : List (String × String) :=
  pairs.foldl (fun d p => dictInsert d p.1 p.2) []

/-- `d.get(k)` (without default): the value of the first entry with key `k`. -/
def dictGet (d : List (String × String)) (k : String) : Option String :=
  (d.find? (fun p => p.1 == k)).map (fun p => p.2)

/-- `get_uuid_history` (annotation.py): `Homologação → ID` dict built from the
ledger rows in order via `dict(annotation[["Homologação","ID"]]...)`. -/
def get_uuid_history (annotTbl : List AnnotRow) : List (String × String) :=
  dictOfPairs (annotTbl.map (fun r => (r.Homologacao, r.ID)))

/-- The `ID` of the last ledger row carrying homologation key `k`, if any. -/
def lastIdOf (annotTbl : List AnnotRow) (k : String) : Option String :=
  (annotTbl.reverse.find? (fun r => r.Homologacao == k)).map (fun r => r.ID)

/-! ### annotation.py -/

/-- `drop_duplicates(subset=["ID"])` with the pandas default `keep="first"`:
keep the first row of each distinct `ID`, preserving order. -/
def dropDupById : List AnnotRow → List AnnotRow
  | [] => []
  | r :: rs => r :: dropDupById (rs.filter (fun x => x.ID != r.ID))
termination_by l => l.length
decreasing_by
  simp only [List.length_cons]
  exact Nat.lt_succ_of_le (List.length_filter_le _ _)

/-- `save_cloud_annotation` (annotation.py): filter the pending table to
`Situação == 1`; if empty, write nothing; otherwise write the subset as a new
timestamp-named artifact (modelled by appending a new table to `cloudFiles`),
raising `OSError` when the write fails (injected flag `fails`). -/
def saveCloudAnnot (annotTbl : List AnnotRow) (fails : Bool)
    (cloudFiles : List (List AnnotRow)) :
    Except String (List (List AnnotRow)) :=
  let pos := annotTbl.filter (fun r => r.Situacao == 1)
  if pos.isEmpty then .ok cloudFiles
  else if fails then .error "OSError: Error saving annotation file"
  else .ok (cloudFiles ++ [pos])

/-- `update_null_annotation` (annotation.py): filter the pending table to
`Situação == -1`; if empty, write nothing; otherwise, when the local
`AnnotationNull.xlsx` exists (`nullFile = some hist`), concatenate the history
with the new nulls and `drop_duplicates(subset=["ID"])`; write the result back
(raising `OSError` on write failure, injected flag `fails`). -/
def updateNullAnnot (annotTbl : List AnnotRow) (fails : Bool)
    (nullFile : Option (List AnnotRow)) :
    Except String (Option (List AnnotRow)) :=
  let nulls := annotTbl.filter (fun r => r.Situacao == -1)
  if nulls.isEmpty then .ok nullFile
  else
    let merged :=
      match nullFile with
      | some hist => dropDupById (hist ++ nulls)
      | none => nulls
    if fails then .error "OSError: Error updating null annotation file"
    else .ok (some merged)

/-! ### sch.py download retry loop

`_download_sch_database`'s `while True` loop.  `outcomes.head` tells whether
the current `urlretrieve` attempt succeeds; on failure the code checks
`n_retries == 0` (an `Int`, it may go negative): when it is zero it logs and
keeps looping (decrementing and sleeping), otherwise it raises `OSError`
immediately. -/

/-- Outcome of the download loop: success or `OSError`, each carrying the
number of `urlretrieve` attempts made and `time.sleep(delay)` calls
performed; `outOfTrace` flags an attempt-outcome trace too short to decide
(never reached in the proofs below). -/
inductive DlResult where
  | ok (attempts sleeps : Nat)
  | oserror (attempts sleeps : Nat)
  | outOfTrace
deriving DecidableEq, Repr

/-- The retry loop of `_download_sch_database` (sch.py, lines 71–87), driven
by the list of per-attempt fetch outcomes (`true` = fetch succeeds). -/
def downloadLoop : List Bool → Int → Nat → Nat → DlResult
  | [], _, _, _ => .outOfTrace
  | o :: rest, nRetries, attempts, sleeps =>
    if o then .ok (attempts + 1) sleeps
    else if nRetries = 0 then
      downloadLoop rest (nRetries - 1) (attempts + 1) (sleeps + 1)
    else .oserror (attempts + 1) sleeps

/-! ### datamanager.py -/

/-- `numero_homologacao.replace("-", "")`: remove every hyphen. -/
def stripHyphens (s : String) : String :=
  String.mk (s.data.filter (fun c => c != '-'))

/-- `f"{query[:5]}-{query[5:7]}-{query[7:]}"` in `format_annotation`. -/
def hyphenate (q : String) : String :=
  q.take 5 ++ "-" ++ (q.drop 5).take 2 ++ "-" ++ q.drop 7

/-- Recursion core of `dropDupByKey`: keep a row exactly when its key was
not seen in an earlier row. -/
def dropDupByKeyAux : List String → List SchRow → List SchRow
  | _, [] => []
  | seen, r :: rs =>
    if seen.contains r.numeroHomologacao then dropDupByKeyAux seen rs
    else r :: dropDupByKeyAux (r.numeroHomologacao :: seen) rs

/-- `drop_duplicates(subset="Número de Homologação")` (pandas default
`keep="first"`) over the catalog table: keep the first row of each distinct
key, preserving order. -/
def dropDupByKey (l : List SchRow) : List SchRow :=
  dropDupByKeyAux [] l

/-- `DataManager.get_items_to_search` (datamanager.py, lines 65–121) up to the
optional `random.shuffle` (the shuffle is a uniform random permutation of
this list; every claim about the worklist is membership- or
emptiness-based, hence permutation-invariant).

Steps, faithful to the source: filter the catalog by category when it is
1, 2 or 3; keep `(key, date)` and deduplicate by key (first kept); take the
ledger's `(Homologação, DataHora, ID)`, strip hyphens from the ledger keys
only; left-merge on the key and keep rows whose `ID` is NaN (anti-join:
catalog rows no hyphen-stripped ledger key matches); compute
`Dias da Homologação = now - date` and, when `grace_period > 0`, keep rows
strictly older than the grace period (a `NaT` date compares false and is
dropped); return the key column. -/
def get_items_to_search (sch : List SchRow) (annotTbl : List AnnotRow)
    (category : Int) (grace_period : Int) (now : Int) : List String :=
  let df_sch := if category = 1 ∨ category = 2 ∨ category = 3 then
      sch.filter (fun r => r.categoriaDoProduto == category)
    else sch
  let df_sch := dropDupByKey df_sch
  let annKeys := annotTbl.map (fun r => stripHyphens r.Homologacao)
  let df_to_search :=
    df_sch.filter (fun r => ! annKeys.contains r.numeroHomologacao)
  let df_to_search := if grace_period > 0 then
      df_to_search.filter (fun r =>
        match r.dataHomologacao with
        | some d => decide (now - d > grace_period)
        | none => false)
    else df_to_search
  df_to_search.map (fun r => r.numeroHomologacao)

/-- Injected ambient effects of `DataManager` and the orchestrator:
`environ` reads, one `datetime.now()` timestamp rendering, a counted
`uuid.uuid4()` supply, and the write-failure switches of the three
persistence targets. -/
structure DMEnv where
  computername : String
  username : String
  datahora : String
  freshUuid : Nat → String
  cloudWriteFails : Bool
  nullWriteFails : Bool
  histWriteFails : Bool

/-- Mutable state of a `DataManager` plus the persisted world it touches:
the `uuid_history` lookup dict, the worklist `items_to_search`, the two
pending in-memory caches, the uuid-draw counter, the `time.sleep` counter of
the orchestrator, the cloud post folder (one entry per timestamped artifact
written), the local `AnnotationNull.xlsx` (`none` = absent), and the
`search_history.parquet` rows. -/
structure DMState where
  uuid_history : List (String × String)
  items_to_search : List String
  cachedSearchResults : List SearchResult
  cachedAnnot : List AnnotRow
  uuidCounter : Nat
  sleeps : Nat
  cloudFiles : List (List AnnotRow)
  nullFile : Option (List AnnotRow)
  searchHistory : List String
deriving DecidableEq, Repr

/-- Model of `json.dumps(wordcloud)` producing the `Valor` payload (opaque
to every claim; a simple injective rendering of the two modelled fields). -/
def jsonDumpsWordcloud (w : WordCloudData) : String :=
  "searchedWord=" ++ w.searchedWord ++ ";cloudOfWords=" ++ w.cloudOfWords

/-- Model of `json.dumps(result["raw_contents"])` in `save_search_results`. -/
def jsonDumpsRaw (s : String) : String :=
  "\"" ++ s ++ "\""

/-- `DataManager.format_annotation` (datamanager.py, lines 123–162): hyphenate
the searched query into the `Homologação` key, reuse
`self.uuid_history.get(homologacao, str(uuid.uuid4()))`, and classify
`Situação` as `-1` when `cloudOfWords` is the empty string, else `1`. -/
def formatAnnot (env : DMEnv) (st : DMState) (search_result : SearchResult) :
    AnnotRow :=
  let w := search_result.wordcloud
  let homologacao := hyphenate w.searchedWord
  { ID := (dictGet st.uuid_history homologacao).getD
      (env.freshUuid st.uuidCounter)
    DataHora := env.datahora
    Computador := env.computername
    Usuario := env.username
    Homologacao := homologacao
    Atributo := "WordCloud"
    Valor := jsonDumpsWordcloud w
    Situacao := if w.cloudOfWords = "" then -1 else 1 }

/-- `DataManager.add_result` (datamanager.py, lines 164–191): on status 429
or 503 do nothing and return `False`; otherwise cache the raw result, cache
the formatted annotation record (drawing one uuid), and return `True`. -/
def addResult (env : DMEnv) (st : DMState) (search_result : SearchResult) :
    DMState × Bool :=
  if search_result.status_code = 429 ∨ search_result.status_code = 503 then
    (st, false)
  else
    let fa := formatAnnot env st search_result
    ({ st with
        cachedSearchResults := st.cachedSearchResults ++ [search_result]
        cachedAnnot := st.cachedAnnot ++ [fa]
        uuidCounter := st.uuidCounter + 1 }, true)

/-- `DataManager.save_annotation` (datamanager.py, lines 193–220), with the
exception the caller observes made explicit in the `Except` result: if the
pending cache is empty, return; otherwise run `save_cloud_annotation` then
`update_null_annotation` and clear the cache — but the whole sequence sits in
`try/except Exception: print(...)`, so every raised `OSError` is caught and
only printed, and the pending cache stays uncleared on the failure paths.
A cloud artifact already written before a null-side failure stays written. -/
def saveAnnotE (env : DMEnv) (st : DMState) : Except String DMState :=
  if st.cachedAnnot.isEmpty then .ok st
  else
    match saveCloudAnnot st.cachedAnnot env.cloudWriteFails st.cloudFiles with
    | .error _ => .ok st
    | .ok cf =>
      match updateNullAnnot st.cachedAnnot env.nullWriteFails st.nullFile with
      | .error _ => .ok { st with cloudFiles := cf }
      | .ok nf =>
        .ok { st with cloudFiles := cf, nullFile := nf, cachedAnnot := [] }

/-- `save_annotation` as the plain state transformer its caller sees
(it never raises). -/
def saveAnnot (env : DMEnv) (st : DMState) : DMState :=
  match saveAnnotE env st with
  | .ok s => s
  | .error _ => st

/-- `DataManager.save_search_results` (datamanager.py, lines 222–264): if the
raw-result cache is empty, return; otherwise append the serialized
`raw_contents` to the history table and clear the cache, re-raising `OSError`
on a write failure (this one is NOT swallowed by the source). -/
def saveSearchResults (env : DMEnv) (st : DMState) : Except String DMState :=
  if st.cachedSearchResults.isEmpty then .ok st
  else if env.histWriteFails then .error "OSError: Error saving search results"
  else .ok { st with
      searchHistory := st.searchHistory ++
        st.cachedSearchResults.map (fun r => jsonDumpsRaw r.raw_contents)
      cachedSearchResults := [] }

/-! ### schwordcloud.py -/

/-- `SEARCH_RETRIES` (schwordcloud.py). -/
def SEARCH_RETRIES : Nat := 3

/-- `SEARCH_ATTEMPT_INTERVAL_TIMEOUT` in seconds (schwordcloud.py); each
recorded sleep lasts this long. -/
def SEARCH_ATTEMPT_INTERVAL_TIMEOUT : Nat := 5

/-- `list.remove(x)`: delete the first occurrence of `x`. -/
def removeFirst : List String → String → List String
  | [], _ => []
  | x :: xs, k => if x = k then xs else x :: removeFirst xs k

/-- The `for attempt in range(SEARCH_RETRIES)` body of
`SCHWordCloud._generate_wordcloud` (schwordcloud.py, lines 33–56).
`cap key attempt` is the search capability (`request_wordcloud`) at the given
attempt index; `remaining` counts the attempts still allowed including the
current one (the loop enters with `remaining = SEARCH_RETRIES`).  On status
200 the result is recorded (`add_result`), the key removed from the shared
worklist and `some 200` returned; on any other status the code sleeps and
retries while `attempt < SEARCH_RETRIES - 1`, else returns the failing
status.  `none` is Python's implicit `None` when the loop range is empty. -/
def attemptSearch (cap : String → Nat → SearchResult) (env : DMEnv)
    (key : String) : Nat → Nat → DMState → DMState × Option Nat
  | _, 0, st => (st, none)
  | attempt, remaining + 1, st =>
    let result := cap key attempt
    if result.status_code = 200 then
      let st1 := (addResult env st result).1
      ({ st1 with items_to_search := removeFirst st1.items_to_search key },
        some 200)
    else if remaining > 0 then
      attemptSearch cap env key (attempt + 1) remaining
        { st with sleeps := st.sleeps + 1 }
    else (st, some result.status_code)

/-- `SCHWordCloud._generate_wordcloud`: run the attempt loop from attempt 0
with `SEARCH_RETRIES` attempts allowed. -/
def generateWordcloudOne (cap : String → Nat → SearchResult) (env : DMEnv)
    (st : DMState) (key : String) : DMState × Option Nat :=
  attemptSearch cap env key 0 SEARCH_RETRIES st

/-- The `for item in self.dm.items_to_search` loop of
`SCHWordCloud.generate_wordcloud` (schwordcloud.py, lines 62–65), with
Python's list-iterator semantics made explicit: the iterator keeps an index
`i` into the LIVE list, re-checking `i < len` each step, so an element
removed by the body shifts its successors under the iterator.  The loop
breaks as soon as an item's result differs from 200.  `fuel` only bounds the
recursion; `i` grows every step while the list never grows, so
`initial length + 1` is always enough. -/
def wcLoop (cap : String → Nat → SearchResult) (env : DMEnv) :
    Nat → Nat → DMState → DMState
  | 0, _, st => st
  | fuel + 1, i, st =>
    if h : i < st.items_to_search.length then
      let key := st.items_to_search.get ⟨i, h⟩
      let p := generateWordcloudOne cap env st key
      if p.2 = some 200 then wcLoop cap env fuel (i + 1) p.1 else p.1
    else st

/-- `SCHWordCloud.generate_wordcloud` (schwordcloud.py, lines 58–68): iterate
the worklist, breaking on the first non-200 item, then always flush the
annotation ledger (`save_annotation`, which swallows its errors) and the raw
search history (`save_search_results`, which re-raises). -/
def generate_wordcloud (cap : String → Nat → SearchResult) (env : DMEnv)
    (st : DMState) : Except String DMState :=
  let st1 := wcLoop cap env (st.items_to_search.length + 1) 0 st
  let st2 := saveAnnot env st1
  saveSearchResults env st2

/-! ### Helper lemmas -/

/-- Looking up a key other than the replaced one is unaffected by the
replacing map in `dictInsert`. -/
theorem dictGet_map_replace_ne (d : List (String × String)) (k v k' : String)
    (h : k' ≠ k) :
    dictGet (d.map (fun p => if p.1 == k then (p.1, v) else p)) k' =
      dictGet d k' := by
  induction d with
  | nil => rfl
  | cons a rest ih =>
    have hfst : (if (a.1 == k) = true then (a.1, v) else a).1 = a.1 := by
      split
      · rfl
      · rfl
    simp only [dictGet, List.map_cons] at ih ⊢
    by_cases hk' : a.1 = k'
    · have hak : ¬a.1 = k := fun hh => h (hk'.symm.trans hh)
      have h1 : (if (a.1 == k) = true then (a.1, v) else a) = a := by
        simp [hak]
      have hb : (a.1 == k') = true := by simpa using hk'
      rw [h1]
      simp [List.find?, hb]
    · have hb : (a.1 == k') = false := by simpa using hk'
      have hb2 :
          ((if (a.1 == k) = true then (a.1, v) else a).1 == k') = false := by
        rw [hfst]; exact hb
      simp only [List.find?, hb, hb2]
      exact ih

/-- When the key is present, the replacing map in `dictInsert` makes its
lookup yield the new value. -/
theorem dictGet_map_replace_eq (d : List (String × String)) (k v : String)
    (h : (d.find? (fun p => p.1 == k)).isSome = true) :
    dictGet (d.map (fun p => if p.1 == k then (p.1, v) else p)) k =
      some v := by
  induction d with
  | nil => simp [List.find?] at h
  | cons a rest ih =>
    by_cases hak : a.1 = k
    · have hb : (a.1 == k) = true := by simpa using hak
      have h1 : (if (a.1 == k) = true then (a.1, v) else a) = (a.1, v) := by
        simp [hak]
      simp only [dictGet, List.map_cons, h1]
      simp [List.find?, hb]
    · have hb : (a.1 == k) = false := by simpa using hak
      have h1 : (if (a.1 == k) = true then (a.1, v) else a) = a := by
        simp [hak]
      have h2 : (rest.find? (fun p => p.1 == k)).isSome = true := by
        simp only [List.find?, hb] at h
        exact h
      simp only [dictGet, List.map_cons, h1]
      simp only [List.find?, hb]
      exact ih h2

/-- `dictGet` after `dictInsert`: the inserted key now yields the inserted
value; every other key is untouched. -/
theorem dictGet_dictInsert (d : List (String × String)) (k v k' : String) :
    dictGet (dictInsert d k v) k' =
      if k' = k then some v else dictGet d k' := by
  unfold dictInsert
  by_cases hpres : (d.find? (fun p => p.1 == k)).isSome = true
  · rw [if_pos hpres]
    by_cases hk : k' = k
    · rw [if_pos hk, hk]
      exact dictGet_map_replace_eq d k v hpres
    · rw [if_neg hk]
      exact dictGet_map_replace_ne d k v k' hk
  · rw [if_neg hpres]
    have habs : d.find? (fun p => p.1 == k) = none := by
      cases hf : d.find? (fun p => p.1 == k) with
      | none => rfl
      | some p => rw [hf] at hpres; simp at hpres
    simp only [dictGet, List.find?_append]
    by_cases hk : k' = k
    · subst hk
      rw [habs, if_pos rfl]
      simp [List.find?]
    · rw [if_neg hk]
      have h2 : List.find? (fun p => p.1 == k') [(k, v)] = none := by
        have hne : (k == k') = false := by
          simpa using fun hh : k = k' => hk hh.symm
        simp [List.find?, hne]
      rw [h2]
      simp [dictGet]

/-- Lookup in the dict built from a pair list: the LAST pair with the looked
up key wins; with no such pair the lookup falls through to the base dict. -/
theorem dictGet_foldl_dictInsert (ps : List (String × String))
    (d : List (String × String)) (k : String) :
    dictGet (ps.foldl (fun d p => dictInsert d p.1 p.2) d) k =
      (match ps.reverse.find? (fun p => p.1 == k) with
       | some q => some q.2
       | none => dictGet d k) := by
  induction ps generalizing d with
  | nil => simp
  | cons p ps ih =>
    simp only [List.foldl_cons, List.reverse_cons, List.find?_append]
    rw [ih]
    cases hps : ps.reverse.find? (fun q => q.1 == k) with
    | some q => simp
    | none =>
      simp only [Option.none_or]
      rw [dictGet_dictInsert]
      by_cases hk : k = p.1
      · rw [List.find?_cons_of_pos _ (by simpa using hk.symm)]
        simp [hk]
      · rw [List.find?_cons_of_neg _ (by simpa using fun hh => hk hh.symm)]
        simp [hk, List.find?]

/-- The uuid-history lookup built by `get_uuid_history` maps a key to the `ID`
of the LAST ledger row carrying it (later rows overwrite earlier ones during
`dict(...)` construction). -/
theorem dictGet_get_uuid_history (annotTbl : List AnnotRow) (k : String) :
    dictGet (get_uuid_history annotTbl) k = lastIdOf annotTbl k := by
  unfold get_uuid_history dictOfPairs lastIdOf
  rw [dictGet_foldl_dictInsert, ← List.map_reverse, List.find?_map]
  have hcomp : ((fun p : String × String => p.1 == k) ∘
      (fun r : AnnotRow => (r.Homologacao, r.ID))) =
      (fun r : AnnotRow => r.Homologacao == k) := rfl
  rw [hcomp]
  cases hf : annotTbl.reverse.find? (fun r => r.Homologacao == k) with
  | some r => rfl
  | none => rfl

/-- `find?` commutes with a `filter` that can never discard a hit. -/
theorem find?_filter_of_imp (l : List AnnotRow) (p q : AnnotRow → Bool)
    (h : ∀ x, p x = true → q x = true) :
    (l.filter q).find? p = l.find? p := by
  induction l with
  | nil => rfl
  | cons a rest ih =>
    by_cases hq : q a = true
    · cases hp : p a with
      | true =>
        simp only [List.filter_cons, hq, if_true, List.find?, hp]
      | false =>
        simp only [List.filter_cons, hq, if_true, List.find?, hp]
        exact ih
    · have hp : p a = false := by
        cases hpa : p a with
        | true => exact absurd (h a hpa) hq
        | false => rfl
      simp only [List.filter_cons, hq, if_false, List.find?, hp,
        Bool.false_eq_true]
      exact ih

/-- `any` is unchanged by a `filter` that can never discard a hit. -/
theorem any_filter_of_imp (l : List AnnotRow) (p q : AnnotRow → Bool)
    (h : ∀ x, p x = true → q x = true) :
    (l.filter q).any p = l.any p := by
  induction l with
  | nil => rfl
  | cons a rest ih =>
    by_cases hq : q a = true
    · simp only [List.filter_cons, hq, if_true, List.any_cons, ih]
    · have hp : p a = false := by
        cases hpa : p a with
        | true => exact absurd (h a hpa) hq
        | false => rfl
      simp only [List.filter_cons, hq, if_false, List.any_cons, hp,
        Bool.false_eq_true, Bool.false_or]
      exact ih

/-- Every row of `dropDupById l` is a row of `l`. -/
theorem mem_dropDupById (l : List AnnotRow) (x : AnnotRow)
    (h : x ∈ dropDupById l) : x ∈ l := by
  induction l using dropDupById.induct with
  | case1 =>
    rw [dropDupById] at h
    exact h
  | case2 r rs ih =>
    rw [dropDupById] at h
    cases h with
    | head => exact List.mem_cons_self _ _
    | tail _ htail =>
      exact List.mem_cons_of_mem _ (List.mem_of_mem_filter (ih htail))

/-- Deduplication by `ID` keeps, for each id, exactly the FIRST row of the
input that carries it: `find?` by id is unchanged. -/
theorem find?_dropDupById (l : List AnnotRow) (i : String) :
    (dropDupById l).find? (fun x => x.ID == i) =
      l.find? (fun x => x.ID == i) := by
  induction l using dropDupById.induct with
  | case1 => rw [dropDupById]
  | case2 r rs ih =>
    rw [dropDupById]
    cases hp : (r.ID == i) with
    | true =>
      simp only [List.find?, hp]
    | false =>
      simp only [List.find?, hp]
      rw [ih]
      exact find?_filter_of_imp rs _ _ (fun x hx => by
        have hxi : x.ID = i := by simpa using hx
        have hri : ¬r.ID = i := by simpa using hp
        simpa [hxi] using fun hh : i = r.ID => hri hh.symm)

/-- After deduplication by `ID` the table holds exactly one row per id that
occurs in the input, and none for an id that does not. -/
theorem count_dropDupById (l : List AnnotRow) (i : String) :
    ((dropDupById l).filter (fun x => x.ID == i)).length =
      (if l.any (fun x => x.ID == i) then 1 else 0) := by
  induction l using dropDupById.induct with
  | case1 => rw [dropDupById]; rfl
  | case2 r rs ih =>
    rw [dropDupById]
    cases hp : (r.ID == i) with
    | true =>
      have hri : r.ID = i := by simpa using hp
      simp only [List.filter_cons, hp, if_true, List.length_cons,
        List.any_cons, Bool.true_or]
      have hnone :
          (dropDupById (rs.filter (fun x => x.ID != r.ID))).filter
            (fun x => x.ID == i) = [] := by
        rw [List.filter_eq_nil_iff]
        intro a ha
        have hmem := mem_dropDupById _ _ ha
        have hne : (a.ID != r.ID) = true := (List.mem_filter.mp hmem).2
        simp only [bne_iff_ne, ne_eq] at hne
        simpa [hri] using hne
      rw [hnone]
      rfl
    | false =>
      simp only [List.filter_cons, hp, if_false, List.any_cons,
        Bool.false_eq_true, Bool.false_or]
      rw [ih, any_filter_of_imp rs _ _ (fun x hx => by
        have hxi : x.ID = i := by simpa using hx
        have hri : ¬r.ID = i := by simpa using hp
        simpa [hxi] using fun hh : i = r.ID => hri hh.symm)]

/-! ### Concrete scenario material -/

/-- A standard effect environment with no write failures. -/
def envStd : DMEnv :=
  { computername := "PC"
    username := "user"
    datahora := "01/01/2026 00:00:00"
    freshUuid := fun n => "uuid-" ++ toString n
    cloudWriteFails := false
    nullWriteFails := false
    histWriteFails := false }

/-- A `DataManager` state with everything empty. -/
def emptyDM : DMState :=
  { uuid_history := []
    items_to_search := []
    cachedSearchResults := []
    cachedAnnot := []
    uuidCounter := 0
    sleeps := 0
    cloudFiles := []
    nullFile := none
    searchHistory := [] }

/-- Build a search result for query `k` with the given status code and
wordcloud payload. -/
def mkResult (k : String) (code : Nat) (cloud : String) : SearchResult :=
  { query := k
    status_code := code
    wordcloud := { searchedWord := k, cloudOfWords := cloud }
    date_time := "dt"
    raw_contents := "raw-" ++ k }

/-- Build a ledger row with the given id, homologation key, outcome and
payload. -/
def mkAnnotRow (i hom : String) (sit : Int) (val : String) : AnnotRow :=
  { ID := i
    DataHora := "dh"
    Computador := "PC"
    Usuario := "user"
    Homologacao := hom
    Atributo := "WordCloud"
    Valor := val
    Situacao := sit }

/-! ### Claim C1 -/

/-- The condition under which the `try` block of `save_annotation` raises:
the pending cache is non-empty and either the positive-artifact write fails
(with a non-empty positive subset, so the write is attempted) or, that write
not failing, the null-file write fails (with a non-empty null subset). -/
def flushWriteFails (env : DMEnv) (st : DMState) : Prop :=
  st.cachedAnnot ≠ [] ∧
    ((env.cloudWriteFails = true ∧
        st.cachedAnnot.filter (fun r => r.Situacao == 1) ≠ []) ∨
     (¬(env.cloudWriteFails = true ∧
          st.cachedAnnot.filter (fun r => r.Situacao == 1) ≠ []) ∧
       env.nullWriteFails = true ∧
        st.cachedAnnot.filter (fun r => r.Situacao == -1) ≠ []))

/-- Claim C1, amended — on any write failure during the flush the pending
buffer is left unchanged (not cleared), but the `OSError` raised by the
write helpers is caught inside `save_annotation` and only printed:
`save_annotation` returns normally, and no `PersistError` reaches its
caller. -/
theorem c1_theorem (env : DMEnv) (st : DMState) (h : flushWriteFails env st) :
    ∃ s2, saveAnnotE env st = .ok s2 ∧ s2.cachedAnnot = st.cachedAnnot := by
  obtain ⟨hne, hcase⟩ := h
  have hemp : st.cachedAnnot.isEmpty = false := by
    cases hl : st.cachedAnnot with
    | nil => exact absurd hl hne
    | cons a l => rfl
  unfold saveAnnotE saveCloudAnnot updateNullAnnot
  simp only [hemp, Bool.false_eq_true, if_false]
  rcases hcase with ⟨hcf, hpos⟩ | ⟨hnotc, hnf, hnull⟩
  · have hposemp :
        (st.cachedAnnot.filter (fun r => r.Situacao == 1)).isEmpty = false := by
      cases hl : st.cachedAnnot.filter (fun r => r.Situacao == 1) with
      | nil => exact absurd hl hpos
      | cons a l => rfl
    simp only [hposemp, Bool.false_eq_true, if_false, hcf, if_true]
    exact ⟨st, rfl, rfl⟩
  · have hnullemp :
        (st.cachedAnnot.filter (fun r => r.Situacao == -1)).isEmpty =
          false := by
      cases hl : st.cachedAnnot.filter (fun r => r.Situacao == -1) with
      | nil => exact absurd hl hnull
      | cons a l => rfl
    simp only [hnullemp, Bool.false_eq_true, if_false, hnf, if_true]
    by_cases hpe :
        (st.cachedAnnot.filter (fun r => r.Situacao == 1)).isEmpty = true
    · simp only [hpe, if_true]
      exact ⟨{ st with cloudFiles := st.cloudFiles }, rfl, rfl⟩
    · have hcfalse : env.cloudWriteFails = false := by
        cases hcc : env.cloudWriteFails with
        | false => rfl
        | true =>
          refine absurd ⟨hcc, ?_⟩ hnotc
          intro hl
          rw [hl] at hpe
          exact hpe rfl
      simp only [hpe, if_false, hcfalse, Bool.false_eq_true]
      exact ⟨{ st with
        cloudFiles := st.cloudFiles ++
          [st.cachedAnnot.filter (fun r => r.Situacao == 1)] }, rfl, rfl⟩

/-- Failing flush scenario for claim C1: one pending positive record, cloud
write failing. -/
def c1_state : DMState :=
  { emptyDM with cachedAnnot := [mkAnnotRow "a1" "11111-11-111" 1 "v"] }

/-- Effect environment for claim C1's scenario: the positive-artifact write
fails. -/
def c1_env : DMEnv := { envStd with cloudWriteFails := true }

/-- Claim C1, witness: at the concrete failing flush, `save_annotation`
returns normally with the pending buffer intact. -/
theorem c1_witness :
    ∃ s2, saveAnnotE c1_env c1_state = .ok s2 ∧
      s2.cachedAnnot = c1_state.cachedAnnot :=
  c1_theorem c1_env c1_state (by constructor <;> decide)

/-- Claim C1, counterexample to the claim as stated: at a flush whose
positive-artifact write fails, `save_annotation` does NOT raise to its
caller — it returns normally (`.ok`), the error having been printed and
swallowed; the claim's `PersistError`-is-raised part is false. -/
theorem c1_counterexample :
    saveAnnotE c1_env c1_state = .ok c1_state ∧
      c1_env.cloudWriteFails = true ∧
      c1_state.cachedAnnot.filter (fun r => r.Situacao == 1) ≠ [] := by
  refine ⟨rfl, rfl, by decide⟩

/-! ### Claim C2 -/

/-- Claim C2 (code bug): with the default `n_retries = 3` and a first fetch
attempt that fails transiently (later attempts would succeed), the download
loop raises `OSError` immediately after one attempt and zero sleeps — the
branch test `if n_retries == 0` is inverted, so the configured retries never
happen; only `n_retries = 0` ever retries, and then exactly once. -/
theorem c2_theorem :
    downloadLoop [false, true, true, true] 3 0 0 = .oserror 1 0 ∧
      downloadLoop [false, true] 0 0 0 = .ok 2 1 := by
  exact ⟨rfl, rfl⟩

/-! ### Claim C3 -/

/-- Null-history row for claim C3: id `X`, payload `old`. -/
def c3_hist : AnnotRow := mkAnnotRow "X" "11111-11-111" (-1) "old"

/-- Pending null row for claim C3 with the same id `X`, payload `new`. -/
def c3_pend : AnnotRow := mkAnnotRow "X" "11111-11-111" (-1) "new"

/-- Claim C3, counterexample to the claim as stated: when the same id occurs
in the existing history and in the pending rows, the written table keeps the
HISTORY occurrence (pandas `drop_duplicates` default `keep="first"`), not
the most recently concatenated pending one — the written row still carries
the old payload. -/
theorem c3_counterexample :
    updateNullAnnot [c3_pend] false (some [c3_hist]) = .ok (some [c3_hist]) ∧
      c3_hist.Valor ≠ c3_pend.Valor := by
  refine ⟨?_, by decide⟩
  have hpair : dropDupById [c3_hist, c3_pend] = [c3_hist] := by
    simp [dropDupById, c3_hist, c3_pend, mkAnnotRow]
  simp [updateNullAnnot, c3_pend, c3_hist, mkAnnotRow]
  exact hpair

/-- Claim C3, amended — after a successful flush onto an existing
null-annotation history, the written table contains exactly one row per
distinct id of history-plus-pending, and when an id occurs in both, the
FIRST concatenated (history) occurrence is kept (first write wins). -/
theorem c3_theorem (annotTbl hist : List AnnotRow)
    (h : annotTbl.filter (fun r => r.Situacao == -1) ≠ []) :
    ∃ out, updateNullAnnot annotTbl false (some hist) = .ok (some out) ∧
      (∀ i, (out.filter (fun x => x.ID == i)).length =
        (if (hist ++ annotTbl.filter (fun r => r.Situacao == -1)).any
            (fun x => x.ID == i) then 1 else 0)) ∧
      (∀ i, out.find? (fun x => x.ID == i) =
        (hist ++ annotTbl.filter (fun r => r.Situacao == -1)).find?
          (fun x => x.ID == i)) := by
  have hemp :
      (annotTbl.filter (fun r => r.Situacao == -1)).isEmpty = false := by
    cases hl : annotTbl.filter (fun r => r.Situacao == -1) with
    | nil => exact absurd hl h
    | cons a l => rfl
  refine ⟨dropDupById
      (hist ++ annotTbl.filter (fun r => r.Situacao == -1)), ?_, ?_, ?_⟩
  · unfold updateNullAnnot
    simp only [hemp, Bool.false_eq_true, if_false]
  · intro i
    exact count_dropDupById _ i
  · intro i
    exact find?_dropDupById _ i

/-- Claim C3, witness: the amended dedup/first-wins statement at the
concrete one-row history and one-row pending buffer. -/
theorem c3_witness :
    ∃ out, updateNullAnnot [c3_pend] false (some [c3_hist]) =
        .ok (some out) ∧
      (∀ i, (out.filter (fun x => x.ID == i)).length =
        (if ([c3_hist] ++
            [c3_pend].filter (fun r => r.Situacao == -1)).any
            (fun x => x.ID == i) then 1 else 0)) ∧
      (∀ i, out.find? (fun x => x.ID == i) =
        ([c3_hist] ++ [c3_pend].filter (fun r => r.Situacao == -1)).find?
          (fun x => x.ID == i)) :=
  c3_theorem [c3_pend] [c3_hist] (by decide)

/-! ### Claim C4 -/

/-- Catalog for claim C4's counterexample: one row whose key carries
formatting hyphens. -/
def c4_sch : List SchRow :=
  [{ numeroHomologacao := "12345-67-890", dataHomologacao := some 0,
     categoriaDoProduto := 2 }]

/-- Ledger for claim C4's counterexample: the same key without separators. -/
def c4_ann : List AnnotRow := [mkAnnotRow "id1" "1234567890" 1 "v"]

/-- Claim C4, counterexample to the claim as stated: the resolver strips
hyphens from LEDGER keys only and compares catalog keys verbatim, so a
catalog entry `"12345-67-890"` is NOT matched by a ledger entry
`"1234567890"` — the key ends up in the resolved backlog, which the claim
says cannot happen. -/
theorem c4_counterexample :
    "12345-67-890" ∈ get_items_to_search c4_sch c4_ann 2 180 400 := by
  decide

/-- Claim C4, amended — normalization is one-sided and hyphen-only: ledger
keys have their hyphens stripped while catalog keys are compared verbatim,
so a catalog key equal to some ledger key's hyphen-stripped form is matched
by the anti-join and never appears in the resolved backlog (the claim's
example matches only in the direction catalog `"1234567890"`, ledger
`"12345-67-890"`). -/
theorem c4_theorem (sch : List SchRow) (annotTbl : List AnnotRow)
    (category grace now : Int) (k : String)
    (h : ∃ r ∈ annotTbl, stripHyphens r.Homologacao = k) :
    k ∉ get_items_to_search sch annotTbl category grace now := by
  intro hmem
  obtain ⟨r, hr, hk⟩ := h
  have hcont :
      (annotTbl.map (fun a => stripHyphens a.Homologacao)).contains k =
        true := by
    rw [List.contains_eq_any_beq, List.any_eq_true]
    exact ⟨stripHyphens r.Homologacao,
      List.mem_map.mpr ⟨r, hr, rfl⟩, by simpa using hk.symm⟩
  unfold get_items_to_search at hmem
  rw [List.mem_map] at hmem
  obtain ⟨row, hrow, hrowk⟩ := hmem
  by_cases hg : grace > 0
  · rw [if_pos hg] at hrow
    have hrow2 := (List.mem_filter.mp hrow).1
    have hanti := (List.mem_filter.mp hrow2).2
    rw [hrowk] at hanti
    rw [hcont] at hanti
    simp at hanti
  · rw [if_neg hg] at hrow
    have hanti := (List.mem_filter.mp hrow).2
    rw [hrowk] at hanti
    rw [hcont] at hanti
    simp at hanti

/-- Catalog for claim C4's witness: the separator-free key. -/
def c4w_sch : List SchRow :=
  [{ numeroHomologacao := "1234567890", dataHomologacao := some 0,
     categoriaDoProduto := 2 }]

/-- Ledger for claim C4's witness: the hyphenated key whose stripped form
matches the catalog key. -/
def c4w_ann : List AnnotRow := [mkAnnotRow "id1" "12345-67-890" 1 "v"]

/-- Claim C4, witness: a catalog key matching a ledger key's hyphen-stripped
form stays out of the backlog. -/
theorem c4_witness :
    "1234567890" ∉ get_items_to_search c4w_sch c4w_ann 2 180 400 :=
  c4_theorem c4w_sch c4w_ann 2 180 400 "1234567890"
    ⟨mkAnnotRow "id1" "12345-67-890" 1 "v", by decide, by decide⟩

/-! ### Claim C5 -/

/-- Claim C5, counterexample to the claim as stated: a surviving catalog row
whose age in days EQUALS the (positive) grace period is NOT included in the
worklist — the filter is strict `>`, contradicting the claim's "a row whose
age equals the grace period is included". Here age `= 180 - 0 = 180` equals
`grace_period = 180` and the worklist comes out empty. -/
theorem c5_counterexample :
    get_items_to_search
      [{ numeroHomologacao := "K", dataHomologacao := some 0,
         categoriaDoProduto := 2 }] [] 2 180 180 = [] := by
  decide

/-- Claim C5, amended — for any positive grace period, a catalog row that
survives the anti-join is in the worklist exactly when its age in days is
STRICTLY greater than the grace period; a row whose age equals the grace
period is excluded. -/
theorem c5_theorem (key : String) (d grace now : Int) (h : grace > 0) :
    key ∈ get_items_to_search
        [{ numeroHomologacao := key, dataHomologacao := some d,
           categoriaDoProduto := 2 }] [] 2 grace now ↔
      now - d > grace := by
  by_cases hd : now - d > grace
  · simp [get_items_to_search, dropDupByKey, dropDupByKeyAux, h, hd]
  · simp [get_items_to_search, dropDupByKey, dropDupByKeyAux, h, hd]

/-- Claim C5, witness: the strict-inequality membership at age 181 against
grace period 180. -/
theorem c5_witness :
    "K" ∈ get_items_to_search
        [{ numeroHomologacao := "K", dataHomologacao := some 0,
           categoriaDoProduto := 2 }] [] 2 180 181 ↔
      (181 : Int) - 0 > 180 :=
  c5_theorem "K" 0 180 181 (by norm_num)

/-! ### Claim C6 -/

/-- Search capability for claim C6's scenario: status 503 (empty cloud) on
`"B"`, status 200 with a non-empty cloud on every other key. -/
def c6_cap : String → Nat → SearchResult := fun k _ =>
  if k = "B" then mkResult k 503 "" else mkResult k 200 "found words"

/-- Initial state for claim C6's scenario: worklist `["A", "B", "C"]`. -/
def c6_state : DMState := { emptyDM with items_to_search := ["A", "B", "C"] }

/-- Claim C6 (code bug): on worklist `["A","B","C"]` with a 503 on `"B"`,
the run does NOT stop at `"B"` with worklist `["B","C"]`.  Because
`generate_wordcloud` removes each succeeding item from the list it is
iterating, after `"A"` succeeds the iterator skips to `"C"`: `"B"` is never
attempted (zero sleeps — a reached 503 would in fact be retried three times
by the assert/except loop rather than stopping the run), `"C"` IS searched
and flushed, and the final worklist is `["B"]`. -/
theorem c6_theorem :
    (generate_wordcloud c6_cap envStd c6_state).toOption.map
      (fun s => (s.items_to_search, s.sleeps,
        s.cloudFiles.map (fun t => t.map (fun r => r.Homologacao)),
        s.searchHistory)) =
    some (["B"], 0, [[hyphenate "A", hyphenate "C"]],
      [jsonDumpsRaw "raw-A", jsonDumpsRaw "raw-C"]) := by
  decide

/-! ### Claim C7 -/

/-- Claim C7, counterexample to the claim as stated: with a non-empty
catalog and an EMPTY ledger the resolver's worklist is not empty — the
anti-join removes nothing, so the grace-eligible catalog key survives. -/
theorem c7_counterexample :
    get_items_to_search
      [{ numeroHomologacao := "K", dataHomologacao := some 0,
         categoriaDoProduto := 2 }] [] 2 180 200 ≠ [] := by
  decide

/-- Claim C7, amended — an empty CATALOG yields an empty worklist without
error for any ledger and parameters; an empty LEDGER also raises no error
but returns the grace-eligible catalog keys, which need not be empty (here
`["K"]`). -/
theorem c7_theorem :
    (∀ (annotTbl : List AnnotRow) (category grace now : Int),
      get_items_to_search [] annotTbl category grace now = []) ∧
      get_items_to_search
        [{ numeroHomologacao := "K", dataHomologacao := some 0,
           categoriaDoProduto := 2 }] [] 2 180 200 = ["K"] := by
  constructor
  · intro annotTbl category grace now
    by_cases hc : category = 1 ∨ category = 2 ∨ category = 3
    · by_cases hg : grace > 0
      · simp [get_items_to_search, hc, hg, dropDupByKey, dropDupByKeyAux]
      · simp [get_items_to_search, hc, hg, dropDupByKey, dropDupByKeyAux]
    · by_cases hg : grace > 0
      · simp [get_items_to_search, hc, hg, dropDupByKey, dropDupByKeyAux]
      · simp [get_items_to_search, hc, hg, dropDupByKey, dropDupByKeyAux]
  · decide

/-! ### Claim C8 -/

/-- Claim C8 — a worklist item whose search fails with non-200 statuses on
the first two attempts and succeeds with 200 on the third, under the
configured `SEARCH_RETRIES = 3`, yields exactly one recorded annotation for
that key (appended once to the pending cache, with the key's hyphenated
form), exactly one removal of the key from the worklist, and exactly two
sleeps (total sleep time `2 * SEARCH_ATTEMPT_INTERVAL_TIMEOUT`). -/
theorem c8_theorem (cap : String → Nat → SearchResult) (env : DMEnv)
    (st : DMState) (key : String)
    (h0 : ¬(cap key 0).status_code = 200)
    (h1 : ¬(cap key 1).status_code = 200)
    (h2 : (cap key 2).status_code = 200)
    (hq : (cap key 2).wordcloud.searchedWord = key) :
    (generateWordcloudOne cap env st key).2 = some 200 ∧
      (generateWordcloudOne cap env st key).1.cachedAnnot =
        st.cachedAnnot ++ [formatAnnot env st (cap key 2)] ∧
      (formatAnnot env st (cap key 2)).Homologacao = hyphenate key ∧
      (generateWordcloudOne cap env st key).1.items_to_search =
        removeFirst st.items_to_search key ∧
      (generateWordcloudOne cap env st key).1.sleeps = st.sleeps + 2 := by
  have h429 : ¬((cap key 2).status_code = 429 ∨
      (cap key 2).status_code = 503) := by
    rw [h2]
    decide
  have e0 : generateWordcloudOne cap env st key =
      attemptSearch cap env key 1 2 { st with sleeps := st.sleeps + 1 } := by
    have eif : generateWordcloudOne cap env st key =
        (if (cap key 0).status_code = 200 then
          ({ (addResult env st (cap key 0)).1 with
              items_to_search :=
                removeFirst (addResult env st (cap key 0)).1.items_to_search
                  key }, some 200)
        else attemptSearch cap env key 1 2
          { st with sleeps := st.sleeps + 1 }) := rfl
    rw [eif, if_neg h0]
  have e1 : attemptSearch cap env key 1 2 { st with sleeps := st.sleeps + 1 } =
      attemptSearch cap env key 2 1 { st with sleeps := st.sleeps + 1 + 1 } := by
    have eif : attemptSearch cap env key 1 2
        { st with sleeps := st.sleeps + 1 } =
        (if (cap key 1).status_code = 200 then
          ({ (addResult env { st with sleeps := st.sleeps + 1 }
                (cap key 1)).1 with
              items_to_search :=
                removeFirst (addResult env { st with sleeps := st.sleeps + 1 }
                  (cap key 1)).1.items_to_search key }, some 200)
        else attemptSearch cap env key 2 1
          { st with sleeps := st.sleeps + 1 + 1 }) := rfl
    rw [eif, if_neg h1]
  have e2 : attemptSearch cap env key 2 1
      { st with sleeps := st.sleeps + 1 + 1 } =
      ({ (addResult env { st with sleeps := st.sleeps + 1 + 1 }
            (cap key 2)).1 with
          items_to_search :=
            removeFirst (addResult env { st with sleeps := st.sleeps + 1 + 1 }
              (cap key 2)).1.items_to_search key }, some 200) := by
    have eif : attemptSearch cap env key 2 1
        { st with sleeps := st.sleeps + 1 + 1 } =
        (if (cap key 2).status_code = 200 then
          ({ (addResult env { st with sleeps := st.sleeps + 1 + 1 }
                (cap key 2)).1 with
              items_to_search :=
                removeFirst (addResult env
                  { st with sleeps := st.sleeps + 1 + 1 }
                  (cap key 2)).1.items_to_search key }, some 200)
        else ({ st with sleeps := st.sleeps + 1 + 1 },
          some (cap key 2).status_code)) := rfl
    rw [eif, if_pos h2]
  have eadd : addResult env { st with sleeps := st.sleeps + 1 + 1 }
      (cap key 2) =
      ({ st with
          sleeps := st.sleeps + 1 + 1
          cachedSearchResults := st.cachedSearchResults ++ [cap key 2]
          cachedAnnot := st.cachedAnnot ++ [formatAnnot env st (cap key 2)]
          uuidCounter := st.uuidCounter + 1 }, true) := by
    unfold addResult
    rw [if_neg h429]
    rfl
  rw [e0, e1, e2, eadd]
  refine ⟨rfl, rfl, ?_, rfl, rfl⟩
  show hyphenate (cap key 2).wordcloud.searchedWord = hyphenate key
  rw [hq]

/-- Search capability for claim C8's witness: 500 on the first two attempts,
200 with a non-empty cloud on the third. -/
def c8_cap : String → Nat → SearchResult := fun k a =>
  if a < 2 then mkResult k 500 "" else mkResult k 200 "words"

/-- Initial state for claim C8's witness. -/
def c8_st : DMState := { emptyDM with items_to_search := ["1234567890"] }

/-- Claim C8, witness: the retry scenario evaluated at a concrete capability
that returns 500, 500, then 200. -/
theorem c8_witness :
    (generateWordcloudOne c8_cap envStd c8_st "1234567890").2 = some 200 ∧
      (generateWordcloudOne c8_cap envStd c8_st "1234567890").1.cachedAnnot =
        c8_st.cachedAnnot ++
          [formatAnnot envStd c8_st (c8_cap "1234567890" 2)] ∧
      (formatAnnot envStd c8_st (c8_cap "1234567890" 2)).Homologacao =
        hyphenate "1234567890" ∧
      (generateWordcloudOne c8_cap envStd c8_st
          "1234567890").1.items_to_search =
        removeFirst c8_st.items_to_search "1234567890" ∧
      (generateWordcloudOne c8_cap envStd c8_st "1234567890").1.sleeps =
        c8_st.sleeps + 2 :=
  c8_theorem c8_cap envStd c8_st "1234567890" (by decide) (by decide)
    (by decide) (by decide)

/-! ### Claim C9 -/

/-- Claim C9 — for every search result outside the 429/503 backpressure
statuses, `add_result` returns `True` and appends exactly one formatted
record to the pending cache; the record reuses the uuid-history id of the
hyphenated key when present and otherwise carries the freshly drawn opaque
token; its outcome is `-1` (null) exactly when the extracted `cloudOfWords`
payload is empty and `1` (positive) exactly when it is non-empty; and no
persisted storage (cloud artifacts, null file, search history) is touched. -/
theorem c9_theorem (env : DMEnv) (st : DMState) (r : SearchResult)
    (h : ¬(r.status_code = 429 ∨ r.status_code = 503)) :
    (addResult env st r).2 = true ∧
      (addResult env st r).1.cachedAnnot =
        st.cachedAnnot ++ [formatAnnot env st r] ∧
      (∀ v, dictGet st.uuid_history (hyphenate r.wordcloud.searchedWord) =
        some v → (formatAnnot env st r).ID = v) ∧
      (dictGet st.uuid_history (hyphenate r.wordcloud.searchedWord) = none →
        (formatAnnot env st r).ID = env.freshUuid st.uuidCounter) ∧
      ((formatAnnot env st r).Situacao = -1 ↔
        r.wordcloud.cloudOfWords = "") ∧
      ((formatAnnot env st r).Situacao = 1 ↔
        ¬r.wordcloud.cloudOfWords = "") ∧
      (addResult env st r).1.cloudFiles = st.cloudFiles ∧
      (addResult env st r).1.nullFile = st.nullFile ∧
      (addResult env st r).1.searchHistory = st.searchHistory := by
  have eadd : addResult env st r =
      ({ st with
          cachedSearchResults := st.cachedSearchResults ++ [r]
          cachedAnnot := st.cachedAnnot ++ [formatAnnot env st r]
          uuidCounter := st.uuidCounter + 1 }, true) := by
    unfold addResult
    rw [if_neg h]
  refine ⟨by rw [eadd], by rw [eadd], ?_, ?_, ?_, ?_, by rw [eadd],
    by rw [eadd], by rw [eadd]⟩
  · intro v hv
    simp [formatAnnot, hv]
  · intro hv
    simp [formatAnnot, hv]
  · by_cases hc : r.wordcloud.cloudOfWords = ""
    · simp [formatAnnot, hc]
    · simp [formatAnnot, hc]
  · by_cases hc : r.wordcloud.cloudOfWords = ""
    · simp [formatAnnot, hc]
    · simp [formatAnnot, hc]

/-- State for claim C9's witness: the uuid history knows key
`11111-11-111`. -/
def c9_st : DMState :=
  { emptyDM with uuid_history := [("11111-11-111", "known-id")] }

/-- Search result for claim C9's witness: query `11111111111`, status 200,
non-empty cloud. -/
def c9_r : SearchResult := mkResult "1111111111" 200 "some words"

/-- Claim C9, witness: the append/formatting contract evaluated at a
concrete in-history result. -/
theorem c9_witness :
    (addResult envStd c9_st c9_r).2 = true ∧
      (addResult envStd c9_st c9_r).1.cachedAnnot =
        c9_st.cachedAnnot ++ [formatAnnot envStd c9_st c9_r] ∧
      (∀ v, dictGet c9_st.uuid_history
        (hyphenate c9_r.wordcloud.searchedWord) = some v →
        (formatAnnot envStd c9_st c9_r).ID = v) ∧
      (dictGet c9_st.uuid_history
        (hyphenate c9_r.wordcloud.searchedWord) = none →
        (formatAnnot envStd c9_st c9_r).ID =
          envStd.freshUuid c9_st.uuidCounter) ∧
      ((formatAnnot envStd c9_st c9_r).Situacao = -1 ↔
        c9_r.wordcloud.cloudOfWords = "") ∧
      ((formatAnnot envStd c9_st c9_r).Situacao = 1 ↔
        ¬c9_r.wordcloud.cloudOfWords = "") ∧
      (addResult envStd c9_st c9_r).1.cloudFiles = c9_st.cloudFiles ∧
      (addResult envStd c9_st c9_r).1.nullFile = c9_st.nullFile ∧
      (addResult envStd c9_st c9_r).1.searchHistory = c9_st.searchHistory :=
  c9_theorem envStd c9_st c9_r (by decide)

/-! ### Claim C10 -/

/-- Claim C10 — when the ledger's key-to-id lookup is built by
`get_uuid_history`, a homologation key maps to the id of the LAST ledger row
carrying it (later rows overwrite earlier ones during dict construction),
and that id is the one `format_annotation` reuses for a new annotation whose
query hyphenates to that key. -/
theorem c10_theorem (rows : List AnnotRow) (env : DMEnv) (st : DMState)
    (r : SearchResult) (v : String)
    (hst : st.uuid_history = get_uuid_history rows)
    (hlast : lastIdOf rows (hyphenate r.wordcloud.searchedWord) = some v) :
    dictGet st.uuid_history (hyphenate r.wordcloud.searchedWord) = some v ∧
      (formatAnnot env st r).ID = v := by
  have hget : dictGet st.uuid_history (hyphenate r.wordcloud.searchedWord) =
      some v := by
    rw [hst, dictGet_get_uuid_history, hlast]
  exact ⟨hget, by simp [formatAnnot, hget]⟩

/-- Ledger rows for claim C10's witness: key `11111-11-111` appears twice
with distinct ids. -/
def c10_rows : List AnnotRow :=
  [mkAnnotRow "id1" "11111-11-111" 1 "a",
   mkAnnotRow "id2" "11111-11-111" (-1) "b"]

/-- State for claim C10's witness: uuid history loaded from `c10_rows`. -/
def c10_st : DMState :=
  { emptyDM with uuid_history := get_uuid_history c10_rows }

/-- Search result for claim C10's witness: query hyphenating to
`11111-11-111`. -/
def c10_r : SearchResult := mkResult "1111111111" 200 "w"

/-- Claim C10, witness: with the same key in two ledger rows (ids `id1` then
`id2`), the lookup and the formatted annotation both yield `id2`. -/
theorem c10_witness :
    dictGet c10_st.uuid_history (hyphenate c10_r.wordcloud.searchedWord) =
        some "id2" ∧
      (formatAnnot envStd c10_st c10_r).ID = "id2" :=
  c10_theorem c10_rows envStd c10_st c10_r "id2" rfl (by decide)

end SCHWordCloud
